import Mathlib

/-!
Shallow embedding of the tide_app repository's core logic, with theorems
checking the natural-language specification against the code.

The embedded sources are:
* the feature-complete `TideBackground` component (four parallax wave layers,
  reduced-motion support, bottom-edge wobble, tide-dependent shallow-layer
  travel cap) — referred to below by its line numbers in the source;
* the `HomeScreen` test-tide-level input pipeline (`displayTideLevel`);
* the mock data layer (`getMockTideData`, `calculateTideEvents`).

Machine numbers are modelled as `ℚ` where the source only does affine
arithmetic, and as `ℝ` where the source calls `Math.sin`.  Animation time is
milliseconds.  Easing functions (react-native's `Easing`, an external
library) are passed as explicit function parameters; the only fact used
about the animation driver is the one react-native guarantees: a completed
`Animated.timing` leaves the animated value exactly at `toValue`.
-/

namespace TideApp

/-! ### TideBackground: water-level channel (component lines 56, 65–82) -/

/-- React Native `AnimatedValue.interpolate` with a two-point `inputRange`
`[inLo, inHi]` and `outputRange` `[outLo, outHi]` (default "extend"
extrapolation): linear interpolation. -/
def interpolate (inLo inHi outLo outHi v : ℚ) : ℚ :=
  outLo + (v - inLo) * (outHi - outLo) / (inHi - inLo)

/-- Value of `Animated.timing(anim, toValue, duration).start()` at `t`
milliseconds after the call, where `fromVal` is the animated value the
transition started from and `ease` the easing curve applied to fractional
progress.  On completion (`duration ≤ t`) the animated value is exactly
`toValue` — this is the react-native `Animated` contract. -/
def timingValue (ease : ℚ → ℚ) (fromVal toVal duration t : ℚ) : ℚ :=
  if duration ≤ t then toVal
  else fromVal + (toVal - fromVal) * ease (t / duration)

/-- Component lines 79–82: `waterHeight = waterHeightAnim.interpolate
inputRange [0, 100], outputRange [SCREEN_HEIGHT * 0.2, SCREEN_HEIGHT]`,
mapping the animated tide-level value `v` to the screen-space water
boundary. -/
def waterHeight (screenHeight v : ℚ) : ℚ :=
  interpolate 0 100 (screenHeight * 0.2) screenHeight v

/-! ### HomeScreen: test tide-level input pipeline (screen lines 54–67) -/

/-- JS `parseInt(value, 10) || 0`: a `NaN` parse (modelled as `none`) is
replaced by `0`. -/
def parseIntOr0 : Option ℤ → ℤ
  | none => 0
  | some n => n

/-- Screen lines 65–67: `displayTideLevel = useTestTide && testTideLevel !== ''
? Math.min(100, Math.max(0, parseInt(testTideLevel, 10) || 0))
: tideData.tideLevel`.  The test input string is abstracted to whether it is
non-empty plus its parse result. -/
def displayTideLevel (useTestTide testNonEmpty : Bool)
    (parsed : Option ℤ) (dataLevel : ℤ) : ℤ :=
  if useTestTide && testNonEmpty then min 100 (max 0 (parseIntOr0 parsed))
  else dataLevel

/-- The level that `HomeScreen` passes to `TideBackground` drives the
boundary mapping: composition of `displayTideLevel` with `waterHeight`. -/
def homeScreenBoundary (screenHeight : ℚ) (useTestTide testNonEmpty : Bool)
    (parsed : Option ℤ) (dataLevel : ℤ) : ℚ :=
  waterHeight screenHeight ((displayTideLevel useTestTide testNonEmpty parsed dataLevel : ℤ) : ℚ)

/-! ### TideBackground: shallow-layer travel cap (component lines 219, 228–230) -/

/-- Component line 219: `actualWaterHeight = SCREEN_HEIGHT * (0.2 +
(tideLevel / 100) * 0.8)` — the current water depth in pixels. -/
def actualWaterHeight (screenHeight tideLevel : ℚ) : ℚ :=
  screenHeight * (0.2 + tideLevel / 100 * 0.8)

/-- Component lines 228–230: `wave1MaxTranslation = tideLevel < 20 ?
-actualWaterHeight * 0.5 : -actualWaterHeight * 0.15` — the (negative,
i.e. upward) maximum translation of the lightest wave layer. -/
def wave1MaxTranslation (screenHeight tideLevel : ℚ) : ℚ :=
  if tideLevel < 20 then -(actualWaterHeight screenHeight tideLevel) * 0.5
  else -(actualWaterHeight screenHeight tideLevel) * 0.15

/-- C1.  Level-to-boundary mapping: for every tide level `L ∈ [0,100]`, once
the primary water-level transition for `L` has completed (`2000 ≤ t`), the
water boundary equals `baseMin + (baseMax - baseMin) * L / 100` exactly,
where `baseMin = 0.2 * screenHeight` and `baseMax = screenHeight`,
independent of the value `s` the transition started from and of the easing
curve; in particular `L = 0` gives 20%, `L = 50` gives 60%, and `L = 100`
gives 100% of viewport height. -/
theorem waterBoundary_linear_mapping (screenHeight L s : ℚ) (ease : ℚ → ℚ)
    (t : ℚ) (hL0 : 0 ≤ L) (hL1 : L ≤ 100) (ht : 2000 ≤ t) :
    waterHeight screenHeight (timingValue ease s L 2000 t)
      = screenHeight * 0.2 + (screenHeight - screenHeight * 0.2) * L / 100
    ∧ waterHeight screenHeight (timingValue ease s 0 2000 t) = screenHeight * 0.2
    ∧ waterHeight screenHeight (timingValue ease s 50 2000 t) = screenHeight * 0.6
    ∧ waterHeight screenHeight (timingValue ease s 100 2000 t) = screenHeight := by
  unfold waterHeight timingValue interpolate
  simp only [if_pos ht]
  refine ⟨by ring, by ring, by ring, by ring⟩

/-- Witness for C1 at a concrete input: viewport 1000, start value 7,
target level 50, identity easing, 2500 ms after retargeting. -/
theorem waterBoundary_linear_mapping_witness :
    (0 : ℚ) ≤ 50 ∧ (50 : ℚ) ≤ 100 ∧ (2000 : ℚ) ≤ 2500 ∧
      waterHeight 1000 (timingValue id 7 50 2000 2500) = 1000 * 0.6 := by
  refine ⟨by norm_num, by norm_num, by norm_num, ?_⟩
  exact (waterBoundary_linear_mapping 1000 50 7 id 2500 (by norm_num) (by norm_num)
    (by norm_num)).2.2.1

/-- C2.  Out-of-range input handling: a numeric test-level input `n` outside
`[0,100]` is clamped to `min 100 (max 0 n)` before driving the
water-boundary mapping; the displayed level always lies in `[0,100]`
whatever the input (including a malformed/`NaN` parse, which becomes `0`),
provided the data-source level is in range; and the pipeline is a total
function — no input value throws. -/
theorem displayTideLevel_clamps (n : ℤ) (hn : n < 0 ∨ 100 < n)
    (u e : Bool) (p : Option ℤ) (d : ℤ) (hd0 : 0 ≤ d) (hd1 : d ≤ 100)
    (screenHeight : ℚ) :
    displayTideLevel true true (some n) d = min 100 (max 0 n)
    ∧ (0 ≤ displayTideLevel u e p d ∧ displayTideLevel u e p d ≤ 100)
    ∧ homeScreenBoundary screenHeight true true (some n) d
        = waterHeight screenHeight ((min 100 (max 0 n) : ℤ) : ℚ) := by
  refine ⟨by simp [displayTideLevel, parseIntOr0], ?_, ?_⟩
  · unfold displayTideLevel
    constructor <;> split <;> (try omega) <;>
      cases p <;> simp only [parseIntOr0] <;> omega
  · unfold homeScreenBoundary displayTideLevel parseIntOr0
    simp

/-- Witness for C2 at a concrete input: `n = 150` (out of range above),
data level 40, viewport 1000. -/
theorem displayTideLevel_clamps_witness :
    ((150 : ℤ) < 0 ∨ (100 : ℤ) < 150) ∧ (0 : ℤ) ≤ 40 ∧ (40 : ℤ) ≤ 100 ∧
      (displayTideLevel true true (some 150) 40 = min 100 (max 0 150)
        ∧ (0 ≤ displayTideLevel false true (some 150) 40
            ∧ displayTideLevel false true (some 150) 40 ≤ 100)
        ∧ homeScreenBoundary 1000 true true (some 150) 40
            = waterHeight 1000 ((min 100 (max 0 150) : ℤ) : ℚ)) := by
  refine ⟨Or.inr (by norm_num), by norm_num, by norm_num, ?_⟩
  exact displayTideLevel_clamps 150 (Or.inr (by norm_num)) false true (some 150) 40
    (by norm_num) (by norm_num) 1000

/-- C3.  Shallow-layer travel cap: the maximum upward travel of the lightest
wave layer is `0.5 * actualWaterHeight` when `tideLevel < 20` and
`0.15 * actualWaterHeight` when `tideLevel ≥ 20`, where the current water
depth is `actualWaterHeight = screenHeight * (0.2 + tideLevel / 100 * 0.8)`
— two distinct formulas, one per case. -/
theorem wave1_travel_cap (screenHeight tideLevel : ℚ) :
    actualWaterHeight screenHeight tideLevel
      = screenHeight * (0.2 + tideLevel / 100 * 0.8)
    ∧ (tideLevel < 20 →
        -(wave1MaxTranslation screenHeight tideLevel)
          = actualWaterHeight screenHeight tideLevel * 0.5)
    ∧ (20 ≤ tideLevel →
        -(wave1MaxTranslation screenHeight tideLevel)
          = actualWaterHeight screenHeight tideLevel * 0.15) := by
  refine ⟨rfl, ?_, ?_⟩
  · intro h
    unfold wave1MaxTranslation
    rw [if_pos h]
    ring
  · intro h
    unfold wave1MaxTranslation
    rw [if_neg (by linarith)]
    ring

/-- Witness for C3 at concrete inputs: viewport 1000, levels 10 and 50. -/
theorem wave1_travel_cap_witness :
    ((10 : ℚ) < 20 ∧
      -(wave1MaxTranslation 1000 10) = actualWaterHeight 1000 10 * 0.5)
    ∧ ((20 : ℚ) ≤ 50 ∧
      -(wave1MaxTranslation 1000 50) = actualWaterHeight 1000 50 * 0.15) :=
  ⟨⟨by norm_num, (wave1_travel_cap 1000 10).2.1 (by norm_num)⟩,
   ⟨by norm_num, (wave1_travel_cap 1000 50).2.2 (by norm_num)⟩⟩

/-! ### TideBackground: decorative loops and reduced motion
(component lines 84–97, 99–215) -/

/-- Value of one decorative yo-yo loop, `Animated.loop(Animated.sequence(
timing to 1 over d, timing to 0 over d))`, at `t` milliseconds after start
(component lines 101–173): the value plays forward then reverse in a
continuous cycle of length `2 * d`. -/
def yoyoLoopValue (ease : ℚ → ℚ) (d : ℕ) (t : ℕ) : ℚ :=
  let phase := t % (2 * d)
  if phase < d then ease ((phase : ℚ) / d)
  else ease (((2 * d - phase : ℕ) : ℚ) / d)

/-- Value of the bottom-edge wobble loop, `Animated.loop(Animated.sequence(
timing to 1 over 3000, timing to -1 over 3000, timing to 0 over 3000))`,
at `t` milliseconds after start (component lines 177–198). -/
def bottomEdgeLoopValue (ease : ℚ → ℚ) (t : ℕ) : ℚ :=
  let phase := t % 9000
  if phase < 3000 then ease ((phase : ℚ) / 3000)
  else if phase < 6000 then 1 + (-1 - 1) * ease (((phase - 3000 : ℕ) : ℚ) / 3000)
  else -1 + (0 - (-1)) * ease (((phase - 6000 : ℕ) : ℚ) / 3000)

/-- Value of a decorative wave channel (`wave1Anim` … `wave4Anim`, component
lines 85–88 and 93–215): each `Animated.Value` is created at 0, and the
effect starts its loop only when `isReducedMotionEnabled` is false
(lines 93–97 return early otherwise, so the value is held at 0). -/
def waveChannelValue (isReducedMotionEnabled : Bool) (ease : ℚ → ℚ)
    (d t : ℕ) : ℚ :=
  if isReducedMotionEnabled then 0 else yoyoLoopValue ease d t

/-- Value of the bottom-edge wobble channel (`bottomEdgeAnim`, component
lines 91 and 93–215): created at 0, loop started only when reduced motion
is off. -/
def bottomEdgeChannelValue (isReducedMotionEnabled : Bool) (ease : ℚ → ℚ)
    (t : ℕ) : ℚ :=
  if isReducedMotionEnabled then 0 else bottomEdgeLoopValue ease t

/-- C6.  Reduced motion: with the reduced-motion preference enabled, none of
the four decorative wave channels (cycle durations 8000/10000/12000/14000 ms)
nor the bottom-edge wobble channel ever changes value between any two times
`t` and `t'`, while the primary water-level channel still completes its
transition to every new target level `L` (its effect, component lines 65–75,
is not guarded by the reduced-motion flag). -/
theorem reducedMotion_suspends_decorative (ease : ℚ → ℚ) (t t' : ℕ)
    (s L u : ℚ) (hu : 2000 ≤ u) :
    waveChannelValue true ease 8000 t = waveChannelValue true ease 8000 t'
    ∧ waveChannelValue true ease 10000 t = waveChannelValue true ease 10000 t'
    ∧ waveChannelValue true ease 12000 t = waveChannelValue true ease 12000 t'
    ∧ waveChannelValue true ease 14000 t = waveChannelValue true ease 14000 t'
    ∧ bottomEdgeChannelValue true ease t = bottomEdgeChannelValue true ease t'
    ∧ timingValue ease s L 2000 u = L := by
  refine ⟨?_, ?_, ?_, ?_, ?_, ?_⟩ <;>
    simp [waveChannelValue, bottomEdgeChannelValue, timingValue, hu]

/-- Witness for C6 at a concrete input: identity easing, times 0 and 5000 ms,
primary transition from 3 to 42 observed at 2000 ms. -/
theorem reducedMotion_suspends_decorative_witness :
    (2000 : ℚ) ≤ 2000 ∧
      (waveChannelValue true id 8000 0 = waveChannelValue true id 8000 5000
        ∧ timingValue id 3 42 2000 2000 = 42) := by
  refine ⟨le_refl _, ?_, ?_⟩
  · exact (reducedMotion_suspends_decorative id 0 5000 3 42 2000 (le_refl _)).1
  · exact (reducedMotion_suspends_decorative id 0 5000 3 42 2000 (le_refl _)).2.2.2.2.2

/-! ### PathGenerator (component lines 262–289 and 294–345)

The SVG path string is modelled as the list of its drawing commands; two
path strings are byte-identical exactly when their command lists are
equal, since the serialization of a command list is a function of the
list. -/

/-- One SVG path command, as emitted by the generators: `M x,y`, `L x,y`,
or `Z`. -/
inductive PathCmd where
  | move (x y : ℝ)
  | line (x y : ℝ)
  | close

/-- Component line 310: y-coordinate of the first repetition's TOP edge at
sample `i`, `yOffset + amplitude * Math.sin((i / segments) * Math.PI * 2 *
frequency)`. -/
noncomputable def waveTopY (amplitude frequency yOffset : ℝ)
    (segments i : ℕ) : ℝ :=
  yOffset + amplitude * Real.sin ((i : ℝ) / (segments : ℝ) * Real.pi * 2 * frequency)

/-- Component lines 315–318: y-coordinate of the first repetition's BOTTOM
edge at sample `i`, `bottomY1 + bAmp * Math.sin((i / segments) * Math.PI *
2 * bFreq + Math.PI)` with `bottomY1 = yOffset + SCREEN_HEIGHT` — a sine
with the phase shifted by π. -/
noncomputable def waveBottomY (screenHeight bAmp bFreq yOffset : ℝ)
    (segments i : ℕ) : ℝ :=
  (yOffset + screenHeight)
    + bAmp * Real.sin ((i : ℝ) / (segments : ℝ) * Real.pi * 2 * bFreq + Real.pi)

/-- Component lines 326–331: y-coordinate of the second repetition's TOP
edge at sample `i`, `topY2 + bAmp * Math.sin((i / segments) * Math.PI * 2 *
bFreq + Math.PI)` with `topY2 = yOffset + SCREEN_HEIGHT`. -/
noncomputable def waveSecondTopY (screenHeight bAmp bFreq yOffset : ℝ)
    (segments i : ℕ) : ℝ :=
  (yOffset + screenHeight)
    + bAmp * Real.sin ((i : ℝ) / (segments : ℝ) * Real.pi * 2 * bFreq + Real.pi)

/-- Component lines 335–339: y-coordinate of the second repetition's BOTTOM
edge at sample `i`, `bottomY2 + amplitude * Math.sin((i / segments) *
Math.PI * 2 * frequency)` with `bottomY2 = yOffset + SCREEN_HEIGHT * 2`. -/
noncomputable def waveSecondBottomY (screenHeight amplitude frequency yOffset : ℝ)
    (segments i : ℕ) : ℝ :=
  (yOffset + screenHeight * 2)
    + amplitude * Real.sin ((i : ℝ) / (segments : ℝ) * Real.pi * 2 * frequency)

/-- Component lines 294–345, `generateWavePath(amplitude, frequency,
yOffset, bottomAmplitude?, bottomFrequency?)`: the full command list of the
two-repetition tiled wave outline.  `segments = 50` is fixed in the source;
`bAmp := bottomAmplitude ?? amplitude` and `bFreq := bottomFrequency ??
frequency * 0.8`. -/
noncomputable def generateWavePath (screenWidth screenHeight : ℝ)
    (amplitude frequency yOffset : ℝ)
    (bottomAmplitude bottomFrequency : Option ℝ) : List PathCmd :=
  let segments : ℕ := 50
  let bAmp := bottomAmplitude.getD amplitude
  let bFreq := bottomFrequency.getD (frequency * 0.8)
  let x : ℕ → ℝ := fun i => (i : ℝ) / (segments : ℝ) * screenWidth
  ((List.range (segments + 1)).map fun i =>
    if i = 0 then PathCmd.move (x i) (waveTopY amplitude frequency yOffset segments i)
    else PathCmd.line (x i) (waveTopY amplitude frequency yOffset segments i))
  ++ ((List.range (segments + 1)).reverse.map fun i =>
    PathCmd.line (x i) (waveBottomY screenHeight bAmp bFreq yOffset segments i))
  ++ [PathCmd.close]
  ++ [PathCmd.move 0 ((yOffset + screenHeight) + bAmp * Real.sin Real.pi)]
  ++ ((List.range (segments + 1)).map fun i =>
    PathCmd.line (x i) (waveSecondTopY screenHeight bAmp bFreq yOffset segments i))
  ++ ((List.range (segments + 1)).reverse.map fun i =>
    PathCmd.line (x i) (waveSecondBottomY screenHeight amplitude frequency yOffset segments i))
  ++ [PathCmd.close]

/-- Component lines 262–289, `generateBottomEdgeWavePath(amplitude,
frequency, height)`: the thin wavy sand/sea boundary band.  `segments = 60`
is fixed in the source; the top edge uses `topFreq = frequency * 1.2` and
the bottom edge uses `frequency` with phase shifted by π. -/
noncomputable def generateBottomEdgeWavePath (screenWidth : ℝ)
    (amplitude frequency height : ℝ) : List PathCmd :=
  let segments : ℕ := 60
  let topFreq := frequency * 1.2
  let x : ℕ → ℝ := fun i => (i : ℝ) / (segments : ℝ) * screenWidth
  ((List.range (segments + 1)).map fun i =>
    if i = 0 then
      PathCmd.move (x i)
        (amplitude + amplitude * Real.sin ((i : ℝ) / (segments : ℝ) * Real.pi * 2 * topFreq))
    else
      PathCmd.line (x i)
        (amplitude + amplitude * Real.sin ((i : ℝ) / (segments : ℝ) * Real.pi * 2 * topFreq)))
  ++ ((List.range (segments + 1)).reverse.map fun i =>
    PathCmd.line (x i)
      (height - amplitude
        + amplitude * Real.sin ((i : ℝ) / (segments : ℝ) * Real.pi * 2 * frequency + Real.pi)))
  ++ [PathCmd.close]

/-- Helper: the phase-shifted sine is strictly negative at any fractional
angle `c * π + π` with `0 < c < 1`. -/
lemma sin_frac_add_pi_neg (c : ℝ) (hc0 : 0 < c) (hc1 : c < 1) :
    Real.sin (c * Real.pi + Real.pi) < 0 := by
  rw [Real.sin_add_pi]
  have : 0 < Real.sin (c * Real.pi) := by
    refine Real.sin_pos_of_pos_of_lt_pi (by positivity) ?_
    nlinarith [Real.pi_pos]
  linarith

/-- Helper: at the component's layer parameters (`0 < bAmp`,
`0 < bFreq < 5`), the first repetition's bottom edge takes different values
at samples 5 and 0, hence is not a straight horizontal line. -/
lemma waveBottomY_not_straight (screenHeight yOffset bAmp bFreq : ℝ)
    (hA : 0 < bAmp) (hf0 : 0 < bFreq) (hf5 : bFreq < 5) :
    waveBottomY screenHeight bAmp bFreq yOffset 50 5
      ≠ waveBottomY screenHeight bAmp bFreq yOffset 50 0 := by
  unfold waveBottomY
  have e5 : ((5 : ℕ) : ℝ) / ((50 : ℕ) : ℝ) * Real.pi * 2 * bFreq + Real.pi
      = bFreq / 5 * Real.pi + Real.pi := by
    push_cast
    ring
  have e0 : ((0 : ℕ) : ℝ) / ((50 : ℕ) : ℝ) * Real.pi * 2 * bFreq + Real.pi
      = Real.pi := by
    push_cast
    ring
  rw [e5, e0, Real.sin_pi]
  have hneg : Real.sin (bFreq / 5 * Real.pi + Real.pi) < 0 :=
    sin_frac_add_pi_neg (bFreq / 5) (by positivity) (by linarith)
  intro h
  nlinarith [hneg]

/-- C7 counterexample.  The claim's "scrolling the layer by exactly one tile
height reproduces the same silhouette" fails on the code: for the lightest
layer's parameters (`generateWavePath(30, 1.5, SCREEN_HEIGHT * 0.45)` with
`SCREEN_HEIGHT = 800`, so `bAmp = 30`, `bFreq = 1.2`), shifting the second
repetition's top edge up by one tile height does not land on the first
repetition's top edge: at sample 25 they differ. -/
theorem wavePath_tile_shift_counterexample :
    waveSecondTopY 800 30 1.2 360 50 25 - 800 ≠ waveTopY 30 1.5 360 50 25 := by
  unfold waveSecondTopY waveTopY
  have e1 : ((25 : ℕ) : ℝ) / ((50 : ℕ) : ℝ) * Real.pi * 2 * 1.2 + Real.pi
      = 0.2 * Real.pi + 2 * Real.pi := by
    push_cast
    ring
  have e2 : ((25 : ℕ) : ℝ) / ((50 : ℕ) : ℝ) * Real.pi * 2 * 1.5
      = Real.pi / 2 + Real.pi := by
    push_cast
    ring
  rw [e1, e2, Real.sin_add_two_pi, Real.sin_add_pi, Real.sin_pi_div_two]
  have hpos : 0 < Real.sin (0.2 * Real.pi) := by
    refine Real.sin_pos_of_pos_of_lt_pi (by positivity) ?_
    nlinarith [Real.pi_pos]
  intro h
  nlinarith [hpos]

/-- C7 (amended).  Wave-outline shape and seamless tiling, as the code has
it: for every viewport, amplitude, frequency and offset, (i) the top edge of
the second repetition coincides point-for-point with the bottom edge of the
first repetition, so the two repetitions join with no seam; (ii) the bottom
edge of the second repetition equals the top edge of the first shifted down
by exactly two tile heights, so the outline repeats with period two tile
heights (not one); and (iii) at each of the four layer parameterizations the
component actually uses (`bAmp`/`bFreq` = 30/1.2, 25/1.6, 20/2.0, 15/2.4),
the phase-shifted bottom edge is not a straight horizontal line. -/
theorem wavePath_edges_and_tiling (screenHeight amplitude frequency yOffset
    bAmp bFreq : ℝ) (segments i : ℕ) :
    waveSecondTopY screenHeight bAmp bFreq yOffset segments i
      = waveBottomY screenHeight bAmp bFreq yOffset segments i
    ∧ waveSecondBottomY screenHeight amplitude frequency yOffset segments i
      = waveTopY amplitude frequency yOffset segments i + 2 * screenHeight
    ∧ (∃ a b : ℕ, a ≤ 50 ∧ b ≤ 50 ∧
        waveBottomY screenHeight 30 1.2 yOffset 50 a
          ≠ waveBottomY screenHeight 30 1.2 yOffset 50 b)
    ∧ (∃ a b : ℕ, a ≤ 50 ∧ b ≤ 50 ∧
        waveBottomY screenHeight 25 1.6 yOffset 50 a
          ≠ waveBottomY screenHeight 25 1.6 yOffset 50 b)
    ∧ (∃ a b : ℕ, a ≤ 50 ∧ b ≤ 50 ∧
        waveBottomY screenHeight 20 2.0 yOffset 50 a
          ≠ waveBottomY screenHeight 20 2.0 yOffset 50 b)
    ∧ (∃ a b : ℕ, a ≤ 50 ∧ b ≤ 50 ∧
        waveBottomY screenHeight 15 2.4 yOffset 50 a
          ≠ waveBottomY screenHeight 15 2.4 yOffset 50 b) := by
  refine ⟨rfl, ?_, ?_, ?_, ?_, ?_⟩
  · unfold waveSecondBottomY waveTopY
    ring
  · exact ⟨5, 0, by norm_num, by norm_num,
      waveBottomY_not_straight _ _ _ _ (by norm_num) (by norm_num) (by norm_num)⟩
  · exact ⟨5, 0, by norm_num, by norm_num,
      waveBottomY_not_straight _ _ _ _ (by norm_num) (by norm_num) (by norm_num)⟩
  · exact ⟨5, 0, by norm_num, by norm_num,
      waveBottomY_not_straight _ _ _ _ (by norm_num) (by norm_num) (by norm_num)⟩
  · exact ⟨5, 0, by norm_num, by norm_num,
      waveBottomY_not_straight _ _ _ _ (by norm_num) (by norm_num) (by norm_num)⟩

/-- C8.  PathGenerator determinism: two calls of `generateWavePath` (and of
the boundary variant `generateBottomEdgeWavePath`) with identical arguments
and identical viewport dimensions produce identical command lists — the
generators are pure functions of exactly these arguments, with no hidden
state. -/
theorem pathGenerator_deterministic
    (w h a f y : ℝ) (ba bf : Option ℝ) (w' h' a' f' y' : ℝ) (ba' bf' : Option ℝ)
    (a2 f2 h2 a2' f2' h2' : ℝ)
    (hw : w = w') (hh : h = h') (hA : a = a') (hf : f = f') (hy : y = y')
    (hba : ba = ba') (hbf : bf = bf')
    (h1 : a2 = a2') (h2e : f2 = f2') (h3 : h2 = h2') :
    generateWavePath w h a f y ba bf = generateWavePath w' h' a' f' y' ba' bf'
    ∧ generateBottomEdgeWavePath w a2 f2 h2
        = generateBottomEdgeWavePath w' a2' f2' h2' := by
  subst hw hh hA hf hy hba hbf h1 h2e h3
  exact ⟨rfl, rfl⟩

/-- Witness for C8 at concrete inputs: the lightest layer's call
`generateWavePath(30, 1.5, 360)` and the boundary call
`generateBottomEdgeWavePath(35, 3, 280)` on a 400 × 800 viewport. -/
theorem pathGenerator_deterministic_witness :
    (400 : ℝ) = 400 ∧
      (generateWavePath 400 800 30 1.5 360 none none
          = generateWavePath 400 800 30 1.5 360 none none
        ∧ generateBottomEdgeWavePath 400 35 3 280
            = generateBottomEdgeWavePath 400 35 3 280) :=
  ⟨rfl, pathGenerator_deterministic 400 800 30 1.5 360 none none 400 800 30 1.5 360
    none none 35 3 280 35 3 280 rfl rfl rfl rfl rfl rfl rfl rfl rfl rfl⟩

/-! ### Mock data layer (`mockData`, feature-complete variant)

Wall-clock time is modelled as the pair `(hour, minute)` returned by
`Date.getHours()` / `Date.getMinutes()`; event times are minutes relative
to today's midnight, so yesterday's entries are negative and tomorrow's
are at least 1440. -/

/-- Type of a scheduled tide event. -/
inductive TideEventType where
  | low
  | high
deriving DecidableEq, Inhabited

/-- Categorical type of a tide reading. -/
inductive TideType where
  | high
  | low
  | rising
  | falling
deriving DecidableEq

/-- A tide event: minutes relative to today's midnight, type, and height in
meters. -/
structure TideEvent where
  time : ℤ
  type : TideEventType
  height : ℚ
deriving DecidableEq

/-- Source lines 51–56: the fixed daily schedule, as
(hour, minute, type, height) rows. -/
def tideSchedule : List (ℕ × ℕ × TideEventType × ℚ) :=
  [(0, 30, TideEventType.low, 0.5),
   (6, 15, TideEventType.high, 2.8),
   (12, 45, TideEventType.low, 0.3),
   (18, 30, TideEventType.high, 2.9)]

/-- A schedule row as today's event. -/
def todayEvent (t : ℕ × ℕ × TideEventType × ℚ) : TideEvent :=
  ⟨(t.1 : ℤ) * 60 + t.2.1, t.2.2.1, t.2.2.2⟩

/-- Source lines 44–139, `calculateTideEvents(now)`: scan the schedule,
keeping the last entry at or before now as the current event and the first
entry strictly after now as the next event; fall back to tomorrow's first
entry (time + 1440) when no next was found, and to yesterday's last entry
(time − 1440) when no current was found. -/
def calculateTideEvents (hour minute : ℕ) : TideEvent × TideEvent :=
  let currentTimeInMinutes : ℤ := hour * 60 + minute
  let scan := List.foldl
    (fun (acc : Option TideEvent × Option TideEvent) t =>
      let tideTimeInMinutes := (todayEvent t).time
      if tideTimeInMinutes ≤ currentTimeInMinutes then
        (some (todayEvent t), acc.2)
      else if acc.2.isNone then
        (acc.1, some (todayEvent t))
      else acc)
    (none, none) tideSchedule
  let nextEvent := match scan.2 with
    | some e => e
    | none =>
      let firstTide := todayEvent tideSchedule.headI
      ⟨firstTide.time + 1440, firstTide.type, firstTide.height⟩
  let currentEvent := match scan.1 with
    | some e => e
    | none =>
      let lastTide := todayEvent (tideSchedule.getLastD tideSchedule.headI)
      ⟨lastTide.time - 1440, lastTide.type, lastTide.height⟩
  (currentEvent, nextEvent)

/-- The daily schedule extended one day into the past and one into the
future, as the claim's wrap-around search domain. -/
def extendedSchedule : List TideEvent :=
  (tideSchedule.map fun t => ⟨(todayEvent t).time - 1440, (todayEvent t).type,
    (todayEvent t).height⟩)
  ++ tideSchedule.map todayEvent
  ++ (tideSchedule.map fun t => ⟨(todayEvent t).time + 1440, (todayEvent t).type,
    (todayEvent t).height⟩)

/-- Decidable statement of the C5 lookup property at one clock time: the
current event carries the time and type of an extended-schedule entry, is at
or before now, and no entry at or before now is later than it; dually the
next event is the soonest entry strictly after now. -/
def eventLookupOK (hour minute : ℕ) : Prop :=
  ((∃ e ∈ extendedSchedule,
      e.time = (calculateTideEvents hour minute).1.time
        ∧ e.type = (calculateTideEvents hour minute).1.type)
    ∧ (calculateTideEvents hour minute).1.time ≤ (hour : ℤ) * 60 + minute
    ∧ ∀ e ∈ extendedSchedule, e.time ≤ (hour : ℤ) * 60 + minute →
        e.time ≤ (calculateTideEvents hour minute).1.time)
  ∧ ((∃ e ∈ extendedSchedule,
      e.time = (calculateTideEvents hour minute).2.time
        ∧ e.type = (calculateTideEvents hour minute).2.type)
    ∧ (hour : ℤ) * 60 + minute < (calculateTideEvents hour minute).2.time
    ∧ ∀ e ∈ extendedSchedule, (hour : ℤ) * 60 + minute < e.time →
        (calculateTideEvents hour minute).2.time ≤ e.time)

instance (hour minute : ℕ) : Decidable (eventLookupOK hour minute) := by
  unfold eventLookupOK
  infer_instance

set_option maxRecDepth 8000 in
set_option maxHeartbeats 4000000 in
/-- Helper: the lookup property holds at every clock time, by exhaustive
evaluation. -/
lemma eventLookupOK_all : ∀ hour < 24, ∀ minute < 60, eventLookupOK hour minute := by
  intro hour hh
  interval_cases hour <;> decide

/-- C5.  Tide-event lookup: at every clock time the current event is the
most recent entry of the (wrap-extended) daily schedule at or before now,
and the next event is the soonest entry strictly after now; in particular at
07:00 the current event is the 06:15 high and the next is the 12:45 low, and
at 23:50 the next event is tomorrow's 00:30 low. -/
theorem calculateTideEvents_lookup (hour minute : ℕ)
    (hh : hour < 24) (hm : minute < 60) :
    eventLookupOK hour minute
    ∧ (calculateTideEvents 7 0).1.type = TideEventType.high
    ∧ (calculateTideEvents 7 0).1.time = 6 * 60 + 15
    ∧ (calculateTideEvents 7 0).2.type = TideEventType.low
    ∧ (calculateTideEvents 7 0).2.time = 12 * 60 + 45
    ∧ (calculateTideEvents 23 50).2.time = 1440 + 30
    ∧ (calculateTideEvents 23 50).2.type = TideEventType.low
    ∧ (calculateTideEvents 23 50).2.height = 0.5 :=
  ⟨eventLookupOK_all hour hh minute hm, by decide, by decide, by decide,
    by decide, by decide, by decide, rfl⟩

/-- Witness for C5 at a concrete input: 07:00. -/
theorem calculateTideEvents_lookup_witness :
    (7 < 24 ∧ 0 < 60) ∧ eventLookupOK 7 0 :=
  ⟨⟨by decide, by decide⟩, (calculateTideEvents_lookup 7 0 (by decide) (by decide)).1⟩

/-- Decidable statement of the C10 pair invariant at one clock time. -/
def eventPairOK (hour minute : ℕ) : Prop :=
  (calculateTideEvents hour minute).1.time ≤ (hour : ℤ) * 60 + minute
  ∧ (hour : ℤ) * 60 + minute < (calculateTideEvents hour minute).2.time
  ∧ ((calculateTideEvents hour minute).1.type = TideEventType.high
      ↔ (calculateTideEvents hour minute).2.type = TideEventType.low)

instance (hour minute : ℕ) : Decidable (eventPairOK hour minute) := by
  unfold eventPairOK
  infer_instance

set_option maxRecDepth 8000 in
set_option maxHeartbeats 4000000 in
/-- Helper: the pair invariant holds at every clock time, by exhaustive
evaluation. -/
lemma eventPairOK_all : ∀ hour < 24, ∀ minute < 60, eventPairOK hour minute := by
  intro hour hh
  interval_cases hour <;> decide

/-- C10.  Tide-event pair invariant: the lookup always returns both a
current and a next event (`calculateTideEvents` is total, its fallbacks
cover the empty cases), with `current.time ≤ now < next.time`, and the two
events have opposite types: `current.type = high ↔ next.type = low`. -/
theorem calculateTideEvents_pair_invariant (hour minute : ℕ)
    (hh : hour < 24) (hm : minute < 60) :
    (calculateTideEvents hour minute).1.time ≤ (hour : ℤ) * 60 + minute
    ∧ (hour : ℤ) * 60 + minute < (calculateTideEvents hour minute).2.time
    ∧ ((calculateTideEvents hour minute).1.type = TideEventType.high
        ↔ (calculateTideEvents hour minute).2.type = TideEventType.low) :=
  eventPairOK_all hour hh minute hm

/-- Witness for C10 at a concrete input: 07:00. -/
theorem calculateTideEvents_pair_invariant_witness :
    (7 < 24 ∧ 0 < 60) ∧
      ((calculateTideEvents 7 0).1.time ≤ (7 : ℤ) * 60 + 0
        ∧ (7 : ℤ) * 60 + 0 < (calculateTideEvents 7 0).2.time
        ∧ ((calculateTideEvents 7 0).1.type = TideEventType.high
            ↔ (calculateTideEvents 7 0).2.type = TideEventType.low)) :=
  ⟨⟨by decide, by decide⟩,
    calculateTideEvents_pair_invariant 7 0 (by decide) (by decide)⟩

/-! ### Mock data layer: `getMockTideData` (source lines 151–185) -/

/-- JS `Math.round`: round half toward positive infinity. -/
noncomputable def jsRound (x : ℝ) : ℤ := ⌊x + 1 / 2⌋

/-- Source line 160: `timeInHours = hour + minute / 60`. -/
noncomputable def timeInHours (hour minute : ℕ) : ℝ :=
  (hour : ℝ) + (minute : ℝ) / 60

/-- Source line 161: `tideLevel = Math.round(50 + 45 * Math.sin((timeInHours
* Math.PI) / 6))`. -/
noncomputable def mockTideLevel (hour minute : ℕ) : ℤ :=
  jsRound (50 + 45 * Real.sin (timeInHours hour minute * Real.pi / 6))

/-- JS `parseFloat(x.toFixed(2))` on values where the 2-decimal rounding is
exact: round to 2 decimal places. -/
noncomputable def toFixed2 (x : ℝ) : ℝ := (jsRound (x * 100) : ℝ) / 100

/-- A tide reading as returned by `getMockTideData`; the `timestamp` field
is the `(hour, minute)` clock time the reading was generated at. -/
structure TideData where
  stationId : String
  timestampHour : ℕ
  timestampMinute : ℕ
  tideLevel : ℤ
  height : ℝ
  type : TideType
  currentTideEvent : TideEvent
  nextTideEvent : TideEvent

/-- Source lines 151–185, `getMockTideData(stationId)` at clock time
`(hour, minute)`: sinusoidal level, affine height rounded to 2 decimals via
`toFixed(2)`, type by thresholding then by morning/afternoon, and the two
tide events from `calculateTideEvents`. -/
noncomputable def getMockTideData (stationId : String) (hour minute : ℕ) :
    TideData :=
  let tideLevel := mockTideLevel hour minute
  let height : ℝ := (tideLevel : ℝ) / 100 * 4 - 1
  let type : TideType :=
    if 80 < tideLevel then TideType.high
    else if tideLevel < 20 then TideType.low
    else if hour < 12 then TideType.rising
    else TideType.falling
  let tideEvents := calculateTideEvents hour minute
  ⟨stationId, hour, minute, tideLevel, toFixed2 height, type,
    tideEvents.1, tideEvents.2⟩

/-- C4.  TideDataSource postcondition: for every station id and clock time,
the reading's `tideLevel` is `round(50 + 45 * sin(timeInHours * π / 6))` and
lies in `[0, 100]`; its `height` is `tideLevel / 100 * 4 - 1` rounded to two
decimals — which is exact, so it equals `tideLevel / 100 * 4 - 1` itself;
its `type` is `high` when `tideLevel > 80`, `low` when `tideLevel < 20`,
otherwise `rising` before noon and `falling` after; and at `timeInHours = 6`
(6:00) the returned `tideLevel` is 50. -/
theorem getMockTideData_postcondition (s : String) (hour minute : ℕ) :
    (getMockTideData s hour minute).tideLevel
      = jsRound (50 + 45 * Real.sin (timeInHours hour minute * Real.pi / 6))
    ∧ 0 ≤ (getMockTideData s hour minute).tideLevel
    ∧ (getMockTideData s hour minute).tideLevel ≤ 100
    ∧ (getMockTideData s hour minute).height
      = toFixed2 (((getMockTideData s hour minute).tideLevel : ℝ) / 100 * 4 - 1)
    ∧ (getMockTideData s hour minute).height
      = ((getMockTideData s hour minute).tideLevel : ℝ) / 100 * 4 - 1
    ∧ (getMockTideData s hour minute).type
      = (if 80 < (getMockTideData s hour minute).tideLevel then TideType.high
        else if (getMockTideData s hour minute).tideLevel < 20 then TideType.low
        else if hour < 12 then TideType.rising
        else TideType.falling)
    ∧ (getMockTideData s 6 0).tideLevel = 50 := by
  have key : ∀ n : ℤ, jsRound ((n : ℝ)) = n := by
    intro n
    unfold jsRound
    rw [Int.floor_eq_iff]
    constructor
    · linarith
    · push_cast
      linarith
  have hs1 := Real.neg_one_le_sin (timeInHours hour minute * Real.pi / 6)
  have hs2 := Real.sin_le_one (timeInHours hour minute * Real.pi / 6)
  refine ⟨rfl, ?_, ?_, rfl, ?_, rfl, ?_⟩
  · show (0 : ℤ) ≤ mockTideLevel hour minute
    unfold mockTideLevel jsRound
    rw [Int.le_floor]
    push_cast
    linarith
  · show mockTideLevel hour minute ≤ 100
    unfold mockTideLevel jsRound
    have h : ⌊50 + 45 * Real.sin (timeInHours hour minute * Real.pi / 6) + 1 / 2⌋ < 101 := by
      rw [Int.floor_lt]
      push_cast
      linarith
    omega
  · show toFixed2 (((getMockTideData s hour minute).tideLevel : ℝ) / 100 * 4 - 1)
      = ((getMockTideData s hour minute).tideLevel : ℝ) / 100 * 4 - 1
    unfold toFixed2
    have hx : (((getMockTideData s hour minute).tideLevel : ℝ) / 100 * 4 - 1) * 100
        = ((4 * (getMockTideData s hour minute).tideLevel - 100 : ℤ) : ℝ) := by
      push_cast
      ring
    rw [hx, key]
    push_cast
    ring
  · show mockTideLevel 6 0 = 50
    unfold mockTideLevel
    have h6 : timeInHours 6 0 * Real.pi / 6 = Real.pi := by
      unfold timeInHours
      push_cast
      ring
    rw [h6, Real.sin_pi]
    have h50 : (50 : ℝ) + 45 * 0 = ((50 : ℤ) : ℝ) := by norm_num
    rw [h50, key]

/-- C9.  Station-id noninterference: for any two station ids and the same
clock time, the two readings agree on every field except `stationId`, which
is the input id echoed verbatim; `getMockTideData` is total on arbitrary
string ids (including ids outside the station catalog), so no id makes it
fail. -/
theorem getMockTideData_station_noninterference (s1 s2 : String)
    (hour minute : ℕ) :
    (getMockTideData s1 hour minute).stationId = s1
    ∧ (getMockTideData s2 hour minute).stationId = s2
    ∧ (getMockTideData s1 hour minute).timestampHour
        = (getMockTideData s2 hour minute).timestampHour
    ∧ (getMockTideData s1 hour minute).timestampMinute
        = (getMockTideData s2 hour minute).timestampMinute
    ∧ (getMockTideData s1 hour minute).tideLevel
        = (getMockTideData s2 hour minute).tideLevel
    ∧ (getMockTideData s1 hour minute).height
        = (getMockTideData s2 hour minute).height
    ∧ (getMockTideData s1 hour minute).type
        = (getMockTideData s2 hour minute).type
    ∧ (getMockTideData s1 hour minute).currentTideEvent
        = (getMockTideData s2 hour minute).currentTideEvent
    ∧ (getMockTideData s1 hour minute).nextTideEvent
        = (getMockTideData s2 hour minute).nextTideEvent :=
  ⟨rfl, rfl, rfl, rfl, rfl, rfl, rfl, rfl, rfl⟩

end TideApp
